import Mathlib

/-!
Shallow embedding of the follower-side transaction replicator
(`pkg/replication/replicator.go`): the data model (`CommitState`,
`FollowerState`, export requests, trailer metadata), the single
replication step `nextTx`, the connection handshake `connect`, the
lifecycle calls `Start`/`Stop`, and one iteration of the background
worker loop.  External collaborators (local database, master session,
stream transport) are modelled as environments that fix the outcome of
each call; the model records the calls it makes as an event trace.
-/

namespace Replication

/-- A byte, modelled as a natural number (values are < 256 in practice). -/
abbrev Byte := Nat

/-- `binary.BigEndian.Uint64` applied to the first 8 bytes of a buffer.
The Go function panics when the buffer is shorter than 8 bytes; callers
of this model check the length first, as the embedded code does. -/
def beUint64 (bs : List Byte) : Nat :=
  (bs.take 8).foldl (fun a b => a * 256 + b) 0

/-- `var alh [sha256.Size]byte; copy(alh[:], v)`: the first 32 bytes of
`v`, zero-padded on the right up to 32 bytes. -/
def fix32 (v : List Byte) : List Byte :=
  v.take 32 ++ List.replicate (32 - v.length) 0

/-- `strings.Contains s pat` on character lists: `pat` occurs as a
contiguous run inside `s`. -/
def charsContain (s pat : List Char) : Bool :=
  match s with
  | [] => pat.isEmpty
  | _ :: rest => pat.isPrefixOf s || charsContain rest pat

/-- Go `strings.Contains`. -/
def strContains (s pat : String) : Bool :=
  charsContain s.toList pat.toList

/-- The divergence marker searched for in the export error message
(`replicator.go:247`). -/
def divergenceMsg : String :=
  "the follower precommit state diverged from the master"

/-- The configuration error produced when sync replication is enabled
locally but the master trailer lacks the certification fields
(`replicator.go:281`). -/
def masterNotSyncMsg : String :=
  "master is not running with synchronous replication"

/-- Snapshot returned by `db.CurrentState()`: last committed tx id and
accumulated hash, and last precommitted tx id and accumulated hash
(fields `TxId`, `TxHash`, `PrecommittedTxId`, `PrecommittedTxHash`). -/
structure CommitState where
  txId : Nat
  txHash : List Byte
  precommittedTxId : Nat
  precommittedTxHash : List Byte
deriving DecidableEq, Repr

/-- `schema.FollowerState` as built in `nextTx` (`replicator.go:230`). -/
structure FollowerState where
  uuid : String
  committedTxID : Nat
  committedAlh : List Byte
  precommittedTxID : Nat
  precommittedAlh : List Byte
deriving DecidableEq, Repr

/-- `schema.ExportTxRequest` as built in `nextTx` (`replicator.go:241`). -/
structure ExportTxRequest where
  tx : Nat
  followerState : Option FollowerState
  allowPreCommitted : Bool
deriving DecidableEq, Repr

/-- Trailer metadata of the export stream: the values found under keys
`may-commit-up-to-txid-bin` and `may-commit-up-to-alh-bin` (each
`md.Get` returns a list of values). -/
structure Trailer where
  txidBin : List (List Byte)
  alhBin : List (List Byte)
deriving DecidableEq, Repr

/-- Outcome of `receiver.ReadFully()`: `eof` models `io.EOF` (tolerated),
`other` a genuine read error. -/
inductive ReadErr where
  | eof
  | other (msg : String)
deriving DecidableEq, Repr

/-- The observable content of a live export stream: what `ReadFully`
yields (buffer and optional error) and the trailer metadata. -/
structure StreamVal where
  readResult : List Byte × Option ReadErr
  trailer : Trailer
deriving DecidableEq, Repr

/-- Environment fixing the outcome of every external call a single
`nextTx` step can make.  `exportResult` is the Go pair
`(exportTxStream, err)`: both values exist even on error, and the stream
value may be absent (`nil`). -/
structure NextTxEnv where
  currentState : Except String CommitState
  syncEnabled : Bool
  exportResult : Option StreamVal × Option String
  discardErr : Option String
  replicateErr : Option String
  allowCommitErr : Option String
deriving Repr

/-- Calls issued by a `nextTx` step, in order. -/
inductive Event where
  | exportTx (req : ExportTxRequest)
  | discardSince (id : Nat)
  | readFully
  | replicateTx (bs : List Byte)
  | trailerRead
  | allowCommitUpto (id : Nat) (alh : List Byte)
deriving DecidableEq, Repr

/-- Outcome of a `nextTx` step: normal return `ok`, returned error
`err`, or a Go runtime panic (nil dereference, slice bounds). -/
inductive StepResult where
  | ok
  | err (msg : String)
  | panic (msg : String)
deriving DecidableEq, Repr

/-- The sync-mode trailer phase of `nextTx` (`replicator.go:277-295`),
entered only when the step reached past the apply phase with a live
stream.  Returns the outcome and the calls made by this phase. -/
def trailerPhase (env : NextTxEnv) (sv : StreamVal) : StepResult × List Event :=
  if sv.trailer.txidBin.length = 0 ∨ sv.trailer.alhBin.length = 0 then
    (.err masterNotSyncMsg, [Event.trailerRead])
  else if (sv.trailer.txidBin.headD []).length < 8 then
    (.panic "runtime error: index out of range", [Event.trailerRead])
  else if 0 < beUint64 (sv.trailer.txidBin.headD []) then
    match env.allowCommitErr with
    | some e =>
      (.err e, [Event.trailerRead,
        Event.allowCommitUpto (beUint64 (sv.trailer.txidBin.headD []))
          (fix32 (sv.trailer.alhBin.headD []))])
    | none =>
      (.ok, [Event.trailerRead,
        Event.allowCommitUpto (beUint64 (sv.trailer.txidBin.headD []))
          (fix32 (sv.trailer.alhBin.headD []))])
  else
    (.ok, [Event.trailerRead])

/-- The drain-and-apply phase of `nextTx` (`replicator.go:263-295`):
build a message receiver over the stream value held after the export
call, read fully, apply a non-empty buffer, then (sync mode) the
trailer phase.  A `none` stream is Go `nil`: reading it panics. -/
def drainPhase (env : NextTxEnv) (streamOpt : Option StreamVal) :
    StepResult × List Event :=
  match streamOpt with
  | none => (.panic "invalid memory address or nil pointer dereference", [])
  | some sv =>
    match sv.readResult.2 with
    | some (.other m) => (.err m, [Event.readFully])
    | _ =>
      match (if 0 < sv.readResult.1.length then env.replicateErr else none) with
      | some e =>
        (.err e, Event.readFully ::
          (if 0 < sv.readResult.1.length then [Event.replicateTx sv.readResult.1] else []))
      | none =>
        if env.syncEnabled then
          ((trailerPhase env sv).1,
            Event.readFully ::
              (if 0 < sv.readResult.1.length then [Event.replicateTx sv.readResult.1] else [])
              ++ (trailerPhase env sv).2)
        else
          (.ok, Event.readFully ::
            (if 0 < sv.readResult.1.length then [Event.replicateTx sv.readResult.1] else []))

/-- The `schema.ExportTxRequest` built by `nextTx` (`replicator.go:224-245`):
requested id `precommittedTxId + 1` in sync mode and `committedTxId + 1`
otherwise, the follower-state snapshot attached exactly in sync mode, and
`AllowPreCommitted` always set. -/
def exportReq (uuid : String) (sync : Bool) (cs : CommitState) : ExportTxRequest :=
  ⟨(if sync then cs.precommittedTxId + 1 else cs.txId + 1),
   (if sync then
      some ⟨uuid, cs.txId, cs.txHash, cs.precommittedTxId, cs.precommittedTxHash⟩
    else none),
   true⟩

/-- One replication step, `nextTx` (`replicator.go:216-298`).  Returns
the step outcome and the trace of external calls made. -/
def nextTxModel (uuid : String) (env : NextTxEnv) : StepResult × List Event :=
  match env.currentState with
  | .error e => (.err e, [])
  | .ok cs =>
    match env.exportResult.2 with
    | none =>
      ((drainPhase env env.exportResult.1).1,
        Event.exportTx (exportReq uuid env.syncEnabled cs) ::
          (drainPhase env env.exportResult.1).2)
    | some e =>
      if strContains e divergenceMsg then
        match env.discardErr with
        | some de =>
          (.err de, [Event.exportTx (exportReq uuid env.syncEnabled cs),
            Event.discardSince (cs.txId + 1)])
        | none =>
          ((drainPhase env env.exportResult.1).1,
            Event.exportTx (exportReq uuid env.syncEnabled cs) ::
              Event.discardSince (cs.txId + 1) :: (drainPhase env env.exportResult.1).2)
      else
        (.err e, [Event.exportTx (exportReq uuid env.syncEnabled cs)])

/-! ## Worker loop (`replicator.go:105-151`) -/

/-- Loop-visible state of a `TxReplicator`: whether a session is live
(`client != nil`) and the consecutive-failure counter. -/
structure LoopState where
  clientLive : Bool
  failedAttempts : Nat
deriving DecidableEq, Repr

/-- Outcome of the external call attempted in one loop iteration. -/
inductive Outcome where
  | ok
  | fail
deriving DecidableEq, Repr

/-- Environment for one loop iteration: the outcome of a connect
attempt (used when no session is live) and of a replication step
(used when one is). -/
structure IterEnv where
  connect : Outcome
  step : Outcome
deriving DecidableEq, Repr

/-- Observable actions of one loop iteration, in order. -/
inductive LoopEvent where
  | connected
  | connectFailed
  | stepOk
  | stepFailed
  | disconnected
  | waited (d : Nat)
deriving DecidableEq, Repr

/-- One iteration of the background worker loop
(`replicator.go:105-151`), parameterised by the backoff policy
`delay` (`delayer.DelayAfter`).  On a successful connect the failure
counter resets and the loop continues without waiting; on a connect
failure or a step failure the counter increments and the loop waits
`delay failedAttempts`; when the counter reaches exactly 3 on a step
failure the session is torn down before the wait. -/
def loopIter (delay : Nat → Nat) (st : LoopState) (env : IterEnv) :
    LoopState × List LoopEvent :=
  if st.clientLive = false then
    match env.connect with
    | .ok => (⟨true, 0⟩, [.connected])
    | .fail =>
      let fa := st.failedAttempts + 1
      (⟨false, fa⟩, [.connectFailed, .waited (delay fa)])
  else
    match env.step with
    | .ok => (st, [.stepOk])
    | .fail =>
      let fa := st.failedAttempts + 1
      if fa = 3 then
        (⟨false, fa⟩, [.stepFailed, .disconnected, .waited (delay fa)])
      else
        (⟨true, fa⟩, [.stepFailed, .waited (delay fa)])

/-- Run the loop over a list of per-iteration environments,
accumulating the event trace. -/
def runIters (delay : Nat → Nat) (st : LoopState) :
    List IterEnv → LoopState × List LoopEvent
  | [] => (st, [])
  | env :: rest =>
    let (st', evs) := loopIter delay st env
    let (stFin, evsRest) := runIters delay st' rest
    (stFin, evs ++ evsRest)

/-! ## Lifecycle (`Start`, `Stop`; `replicator.go:84-98`, `300-319`) -/

/-- Lifecycle errors returned by `Start`/`Stop`. -/
inductive LifecycleErr where
  | alreadyRunning
  | alreadyStopped
deriving DecidableEq, Repr

/-- Lifecycle-visible state of a `TxReplicator`: the running flag, the
number of workers spawned so far, the generation count of cancellable
contexts created, and whether the current context is cancelled. -/
structure LifecycleState where
  running : Bool
  workersSpawned : Nat
  contextGen : Nat
  cancelled : Bool
deriving DecidableEq, Repr

/-- `Start()` (`replicator.go:84-98`): fails with `ErrAlreadyRunning`
when already running, touching nothing; otherwise creates a fresh
cancellable context, marks running and launches exactly one worker. -/
def startModel (st : LifecycleState) : Option LifecycleErr × LifecycleState :=
  if st.running then
    (some .alreadyRunning, st)
  else
    (none, ⟨true, st.workersSpawned + 1, st.contextGen + 1, false⟩)

/-- `Stop()` (`replicator.go:300-319`): fails with `ErrAlreadyStopped`
when not running, touching nothing; otherwise signals cancellation and
marks not running. -/
def stopModel (st : LifecycleState) : Option LifecycleErr × LifecycleState :=
  if st.running = false then
    (some .alreadyStopped, st)
  else
    (none, { st with running := false, cancelled := true })

/-! ## Connection handshake (`connect`; `replicator.go:163-200`) -/

/-- Connection-visible state of a `TxReplicator`: the session handle
(`client`, absent when `nil`) and the outgoing client context, modelled
by the authorization token it currently attaches. -/
structure ConnState where
  client : Option Unit
  clientContext : Option String
deriving DecidableEq, Repr

/-- Environment fixing the outcome of each handshake call: dialing the
master (`NewImmuClient`), `Login` (yields the session token) and
`UseDatabase` (yields the database-scoped token). -/
structure ConnectEnv where
  dialErr : Option String
  loginResult : Except String String
  useDbResult : Except String String
deriving Repr

/-- `connect()` (`replicator.go:163-200`): dial, login, use-database;
any failure aborts the handshake with that error.  The client context
is updated with the login token before the use-database call, and with
the database-scoped token after it; the session handle is set only when
every step succeeded. -/
def connectModel (st : ConnState) (env : ConnectEnv) :
    Option String × ConnState :=
  match env.dialErr with
  | some e => (some e, st)
  | none =>
    match env.loginResult with
    | .error e => (some e, st)
    | .ok loginTok =>
      let st1 : ConnState := { st with clientContext := some loginTok }
      match env.useDbResult with
      | .error e => (some e, st1)
      | .ok udrTok =>
        (none, { client := some (), clientContext := some udrTok })

/-! ## Theorems -/

/-- C4: across the worker loop, `failedAttempts` is set to zero exactly on a
successful connect (a successful replication step leaves it unchanged), and
is incremented by exactly one on every connect failure and on every
replication-step failure. -/
theorem failedAttempts_transitions (delay : Nat → Nat) (st : LoopState) (env : IterEnv) :
    (st.clientLive = false → env.connect = .ok →
      (loopIter delay st env).1.failedAttempts = 0) ∧
    (st.clientLive = false → env.connect = .fail →
      (loopIter delay st env).1.failedAttempts = st.failedAttempts + 1) ∧
    (st.clientLive = true → env.step = .ok →
      (loopIter delay st env).1.failedAttempts = st.failedAttempts) ∧
    (st.clientLive = true → env.step = .fail →
      (loopIter delay st env).1.failedAttempts = st.failedAttempts + 1) := by
  obtain ⟨cl, fa⟩ := st
  obtain ⟨c, s⟩ := env
  cases cl <;> cases c <;> cases s <;> simp [loopIter] <;> split <;> simp

/-- Witness for `failedAttempts_transitions`: a successful connect resets the
counter from 5 to 0, and a step failure while connected increments 5 to 6. -/
theorem failedAttempts_transitions_witness :
    (loopIter (fun _ => 1) ⟨false, 5⟩ ⟨.ok, .ok⟩).1.failedAttempts = 0 ∧
    (loopIter (fun _ => 1) ⟨true, 5⟩ ⟨.ok, .fail⟩).1.failedAttempts = 6 :=
  ⟨(failedAttempts_transitions (fun _ => 1) ⟨false, 5⟩ ⟨.ok, .ok⟩).1 rfl rfl,
   (failedAttempts_transitions (fun _ => 1) ⟨true, 5⟩ ⟨.ok, .fail⟩).2.2.2 rfl rfl⟩

/-- C5: when the 3rd consecutive replication-step failure occurs while a
session is live, the session is torn down before the backoff wait (the
iteration trace is step-failed, disconnected, waited), the counter keeps
incrementing across the teardown, and the following iteration — where the
4th consecutive failure can occur — is a fresh connect attempt; a step
failure that does not bring the counter to 3 keeps the session live. -/
theorem teardown_after_three (delay : Nat → Nat) (st : LoopState) (env env2 : IterEnv)
    (hc : st.clientLive = true) (hf : st.failedAttempts = 2) (hs : env.step = .fail) :
    (loopIter delay st env).1 = ⟨false, 3⟩ ∧
    (loopIter delay st env).2 = [.stepFailed, .disconnected, .waited (delay 3)] ∧
    (env2.connect = .fail →
      loopIter delay (loopIter delay st env).1 env2 =
        (⟨false, 4⟩, [.connectFailed, .waited (delay 4)])) ∧
    (∀ st3 env3, st3.clientLive = true → env3.step = .fail →
      st3.failedAttempts + 1 ≠ 3 →
      (loopIter delay st3 env3).1 = ⟨true, st3.failedAttempts + 1⟩) := by
  obtain ⟨cl, fa⟩ := st
  obtain ⟨c, s⟩ := env
  cases hc
  cases hf
  cases hs
  refine ⟨by simp [loopIter], by simp [loopIter], ?_, ?_⟩
  · intro h2
    obtain ⟨c2, s2⟩ := env2
    cases h2
    simp [loopIter]
  · intro st3 env3 h3c h3s h3f
    obtain ⟨cl3, fa3⟩ := st3
    obtain ⟨c3, s3⟩ := env3
    cases h3c
    cases h3s
    simp only at h3f
    have hne : fa3 ≠ 2 := by omega
    simp [loopIter, hne]

/-- Witness for `teardown_after_three`: from a live session with 2 prior
failures, a 3rd failure tears down the session; from the torn-down state a
failing connect gives the 4th failure during a fresh handshake; and from a
live session with 0 prior failures a failure keeps the session live. -/
theorem teardown_after_three_witness :
    (loopIter (fun n => n) ⟨true, 2⟩ ⟨.ok, .fail⟩).1 = ⟨false, 3⟩ ∧
    loopIter (fun n => n) ⟨false, 3⟩ ⟨.fail, .ok⟩ =
      (⟨false, 4⟩, [.connectFailed, .waited 4]) ∧
    (loopIter (fun n => n) ⟨true, 0⟩ ⟨.ok, .fail⟩).1 = ⟨true, 1⟩ := by
  have h := teardown_after_three (fun n => n) ⟨true, 2⟩ ⟨.ok, .fail⟩ ⟨.fail, .ok⟩ rfl rfl rfl
  refine ⟨h.1, ?_, h.2.2.2 ⟨true, 0⟩ ⟨.ok, .fail⟩ rfl rfl (by decide)⟩
  have h2 := h.2.2.1 rfl
  rw [h.1] at h2
  exact h2

/-- C6: `Start` on a running instance returns `AlreadyRunning` with no state
change and no extra worker; otherwise it creates a fresh context, marks
running and spawns exactly one worker.  `Stop` on a stopped instance returns
`AlreadyStopped` with no state change; otherwise it signals cancellation and
marks not running. -/
theorem start_stop_lifecycle (st : LifecycleState) :
    (st.running = true → startModel st = (some .alreadyRunning, st)) ∧
    (st.running = false →
      startModel st = (none, ⟨true, st.workersSpawned + 1, st.contextGen + 1, false⟩)) ∧
    (st.running = false → stopModel st = (some .alreadyStopped, st)) ∧
    (st.running = true →
      stopModel st = (none, { st with running := false, cancelled := true })) := by
  obtain ⟨r, w, c, x⟩ := st
  cases r <;> simp [startModel, stopModel]

/-- Witness for `start_stop_lifecycle`: a second `Start` fails without
spawning a worker, and a second `Stop` fails without a state change. -/
theorem start_stop_lifecycle_witness :
    startModel ⟨true, 1, 1, false⟩ = (some .alreadyRunning, ⟨true, 1, 1, false⟩) ∧
    stopModel ⟨false, 1, 1, true⟩ = (some .alreadyStopped, ⟨false, 1, 1, true⟩) :=
  ⟨(start_stop_lifecycle ⟨true, 1, 1, false⟩).1 rfl,
   (start_stop_lifecycle ⟨false, 1, 1, true⟩).2.2.1 rfl⟩

/-- A handshake environment in which dialing and login succeed but the
use-database call fails. -/
def useDbFailEnv : ConnectEnv :=
  ⟨none, .ok "login-token", .error "use-db failed"⟩

/-- Counterexample to C7: when login succeeds and use-database fails, the
failed `connect` call leaves the session handle absent but has changed the
client context (it now carries the login token), so not all other fields of
the instance are unchanged. -/
theorem connect_frame_cex :
    (connectModel ⟨none, none⟩ useDbFailEnv).1 = some "use-db failed" ∧
    (connectModel ⟨none, none⟩ useDbFailEnv).2.client = none ∧
    (connectModel ⟨none, none⟩ useDbFailEnv).2 ≠ (⟨none, none⟩ : ConnState) := by
  refine ⟨rfl, rfl, ?_⟩
  intro h
  have : (some "login-token" : Option String) = none := congrArg ConnState.clientContext h
  exact Option.noConfusion this

/-- C7 as amended: every failing `connect` aborts with that error and retains
no partial session (the session handle stays as it was, absent); a dial or
login failure changes nothing else either, but a use-database failure leaves
the client context holding the login token obtained just before. -/
theorem connect_no_partial_session (st : ConnState) (env : ConnectEnv) (e : String)
    (h : (connectModel st env).1 = some e) :
    (connectModel st env).2.client = st.client ∧
    ((connectModel st env).2 = st ∨
      ∃ tok, env.loginResult = .ok tok ∧ env.useDbResult = .error e ∧
        (connectModel st env).2 = { st with clientContext := some tok }) := by
  obtain ⟨d, l, u⟩ := env
  cases d with
  | some de => simp_all [connectModel]
  | none =>
    cases l with
    | error le => simp_all [connectModel]
    | ok tok =>
      cases u with
      | error ue =>
        have he : ue = e := by simpa [connectModel] using h
        subst he
        exact ⟨rfl, .inr ⟨tok, rfl, rfl, rfl⟩⟩
      | ok utok => simp [connectModel] at h

/-- Witness for `connect_no_partial_session`: a failing use-database call
keeps the session handle absent. -/
theorem connect_no_partial_session_witness :
    (connectModel ⟨none, none⟩ useDbFailEnv).2.client = none :=
  (connect_no_partial_session ⟨none, none⟩ useDbFailEnv "use-db failed" rfl).1

/-- The trailer phase never issues a `ReplicateTx` call. -/
theorem replicateTx_not_in_trailerPhase (env : NextTxEnv) (sv : StreamVal) (b : List Byte) :
    Event.replicateTx b ∉ (trailerPhase env sv).2 := by
  unfold trailerPhase
  repeat' split
  all_goals simp

/-- A drain over a live stream always begins with a `ReadFully` call. -/
theorem drainPhase_some_head (env : NextTxEnv) (sv : StreamVal) :
    ∃ rest, (drainPhase env (some sv)).2 = Event.readFully :: rest := by
  simp only [drainPhase]
  repeat' split
  all_goals exact ⟨_, rfl⟩

/-- With sync replication disabled, no branch of a replication step reads
the trailer or calls `AllowCommitUpto`. -/
theorem async_no_trailer (uuid : String) (env : NextTxEnv)
    (h : env.syncEnabled = false) :
    Event.trailerRead ∉ (nextTxModel uuid env).2 ∧
    ∀ i a, Event.allowCommitUpto i a ∉ (nextTxModel uuid env).2 := by
  have hd : ∀ s, Event.trailerRead ∉ (drainPhase env s).2 ∧
      ∀ i a, Event.allowCommitUpto i a ∉ (drainPhase env s).2 := by
    intro s
    unfold drainPhase
    repeat' split
    all_goals simp_all
  constructor
  · unfold nextTxModel
    repeat' split
    all_goals simp [(hd env.exportResult.1).1]
  · intro i a
    unfold nextTxModel
    repeat' split
    all_goals simp [(hd env.exportResult.1).2 i a]

/-- C2: the transaction id requested from the master is
`precommittedTxId + 1` when sync replication is enabled and
`committedTxId + 1` otherwise, and the `FollowerState` snapshot (instance
id, committed id and hash, precommitted id and hash) is sent with the
export request exactly when sync replication is enabled
(`AllowPreCommitted` always set). -/
theorem nextTx_request (uuid : String) (env : NextTxEnv) (cs : CommitState)
    (hcs : env.currentState = .ok cs) :
    ∃ rest, (nextTxModel uuid env).2 =
      Event.exportTx
        ⟨(if env.syncEnabled then cs.precommittedTxId + 1 else cs.txId + 1),
         (if env.syncEnabled then
            some ⟨uuid, cs.txId, cs.txHash, cs.precommittedTxId, cs.precommittedTxHash⟩
          else none),
         true⟩ :: rest := by
  simp only [nextTxModel, hcs, exportReq]
  repeat' split
  all_goals exact ⟨_, rfl⟩

/-- An environment for a plain async step: committed id 4, the export
succeeds and the stream carries the bytes `[9, 9]`. -/
def asyncOkEnv : NextTxEnv :=
  { currentState := .ok ⟨4, [1], 6, [2]⟩
    syncEnabled := false
    exportResult := (some ⟨([9, 9], none), ⟨[], []⟩⟩, none)
    discardErr := none
    replicateErr := none
    allowCommitErr := none }

/-- Witness for `nextTx_request`: an async step at committed id 4 requests
transaction 5 with no follower state. -/
theorem nextTx_request_witness :
    ∃ rest, (nextTxModel "u" asyncOkEnv).2 = Event.exportTx ⟨5, none, true⟩ :: rest := by
  have h := nextTx_request "u" asyncOkEnv ⟨4, [1], 6, [2]⟩ rfl
  simpa using h

/-- C1: with sync replication enabled, once the stream has been drained
(and any non-empty buffer applied), the step inspects the response trailer:
if either certification field is absent the step fails with the
configuration error "master is not running with synchronous replication";
if both are present and the big-endian 64-bit decoded id is positive,
`AllowCommitUpto` is called with exactly that id and (32-byte) hash; and
with sync replication disabled the trailer is never inspected, in any
environment. -/
theorem trailer_certification (uuid : String) (env : NextTxEnv) (cs : CommitState)
    (sv : StreamVal)
    (hcs : env.currentState = .ok cs)
    (hex : env.exportResult = (some sv, none))
    (hre : sv.readResult.2 = none ∨ sv.readResult.2 = some .eof)
    (happ : env.replicateErr = none)
    (hsync : env.syncEnabled = true) :
    ((sv.trailer.txidBin = [] ∨ sv.trailer.alhBin = []) →
      (nextTxModel uuid env).1 = .err masterNotSyncMsg) ∧
    (∀ v vs w ws, sv.trailer.txidBin = v :: vs → sv.trailer.alhBin = w :: ws →
      8 ≤ v.length → 0 < beUint64 v →
      Event.allowCommitUpto (beUint64 v) (fix32 w) ∈ (nextTxModel uuid env).2) ∧
    (∀ env2 : NextTxEnv, env2.syncEnabled = false →
      Event.trailerRead ∉ (nextTxModel uuid env2).2 ∧
      ∀ i a, Event.allowCommitUpto i a ∉ (nextTxModel uuid env2).2) := by
  have hdrain : drainPhase env (some sv) =
      ((trailerPhase env sv).1,
        Event.readFully ::
          ((if 0 < sv.readResult.1.length then [Event.replicateTx sv.readResult.1] else [])
            ++ (trailerPhase env sv).2)) := by
    rcases hre with hre | hre <;> simp [drainPhase, hre, happ, hsync, ite_self]
  have hmodel : nextTxModel uuid env =
      ((trailerPhase env sv).1,
        Event.exportTx (exportReq uuid env.syncEnabled cs) ::
          Event.readFully ::
            ((if 0 < sv.readResult.1.length then [Event.replicateTx sv.readResult.1] else [])
              ++ (trailerPhase env sv).2)) := by
    simp [nextTxModel, hcs, hex, hdrain]
  refine ⟨?_, ?_, fun env2 h2 => async_no_trailer uuid env2 h2⟩
  · intro hmd
    have ht : trailerPhase env sv = (.err masterNotSyncMsg, [Event.trailerRead]) := by
      rcases hmd with hmd | hmd <;> simp [trailerPhase, hmd]
    rw [hmodel, ht]
  · intro v vs w ws hv hw hlen hpos
    have h8 : ¬ (v.length < 8) := by omega
    have ht : (trailerPhase env sv).2 =
        [Event.trailerRead, Event.allowCommitUpto (beUint64 v) (fix32 w)] := by
      rcases hac : env.allowCommitErr with _ | e <;>
        simp [trailerPhase, hv, hw, h8, hpos, hac]
    rw [hmodel]
    simp [ht]

/-- An environment for a sync step with a live stream and a trailer that
certifies id 9 (big-endian) with a short hash value. -/
def syncTrailerEnv : NextTxEnv :=
  { currentState := .ok ⟨4, [1], 6, [2]⟩
    syncEnabled := true
    exportResult := (some ⟨([7], none), ⟨[[0, 0, 0, 0, 0, 0, 0, 9]], [[3, 3]]⟩⟩, none)
    discardErr := none
    replicateErr := none
    allowCommitErr := none }

/-- Witness for `trailer_certification`: the certified id decoded from the
trailer is passed to `AllowCommitUpto`. -/
theorem trailer_certification_witness :
    Event.allowCommitUpto (beUint64 [0, 0, 0, 0, 0, 0, 0, 9]) (fix32 [3, 3]) ∈
      (nextTxModel "u" syncTrailerEnv).2 :=
  (trailer_certification "u" syncTrailerEnv ⟨4, [1], 6, [2]⟩
      ⟨([7], none), ⟨[[0, 0, 0, 0, 0, 0, 0, 9]], [[3, 3]]⟩⟩ rfl rfl (Or.inl rfl) rfl rfl).2.1
    [0, 0, 0, 0, 0, 0, 0, 9] [] [3, 3] [] rfl rfl (by decide) (by decide)

/-- Environment refuting C8: sync replication on, export succeeds, the
stream drains cleanly to zero bytes, and the trailer certification fields
are absent. -/
def emptySyncNoTrailerEnv : NextTxEnv :=
  { currentState := .ok ⟨5, [], 7, []⟩
    syncEnabled := true
    exportResult := (some ⟨([], none), ⟨[], []⟩⟩, none)
    discardErr := none
    replicateErr := none
    allowCommitErr := none }

/-- Counterexample to C8: a cleanly drained empty buffer is not always a
no-op success — with sync replication enabled the step continues into the
trailer inspection and here fails with the configuration error.
`ReplicateTx` is indeed absent from the trace. -/
theorem drain_noop_cex :
    nextTxModel "u" emptySyncNoTrailerEnv =
      (.err masterNotSyncMsg,
       [Event.exportTx ⟨8, some ⟨"u", 5, [], 7, []⟩, true⟩, Event.readFully,
        Event.trailerRead]) := by
  decide

/-- C8 as amended: the stream is drained fully into one buffer with
end-of-stream not treated as an error; on an empty buffer `ReplicateTx` is
never called and, when sync replication is disabled, the step is a no-op
success (with sync enabled the outcome is then decided by the trailer
phase); on a non-empty buffer `ReplicateTx` is called exactly once, with
the whole buffer. -/
theorem drain_and_apply (uuid : String) (env : NextTxEnv) (cs : CommitState)
    (sv : StreamVal)
    (hcs : env.currentState = .ok cs)
    (hex : env.exportResult = (some sv, none))
    (hre : sv.readResult.2 = none ∨ sv.readResult.2 = some .eof) :
    (sv.readResult.1 = [] →
      (∀ b, Event.replicateTx b ∉ (nextTxModel uuid env).2) ∧
      (env.syncEnabled = false →
        nextTxModel uuid env =
          (.ok, [Event.exportTx ⟨cs.txId + 1, none, true⟩, Event.readFully]))) ∧
    (sv.readResult.1 ≠ [] →
      ∃ pre post,
        (nextTxModel uuid env).2 = pre ++ Event.replicateTx sv.readResult.1 :: post ∧
        (∀ b, Event.replicateTx b ∉ pre) ∧ (∀ b, Event.replicateTx b ∉ post)) := by
  have hmodel : nextTxModel uuid env =
      ((drainPhase env (some sv)).1,
        Event.exportTx (exportReq uuid env.syncEnabled cs) :: (drainPhase env (some sv)).2) := by
    simp [nextTxModel, hcs, hex]
  constructor
  · intro hempty
    have hdrain : drainPhase env (some sv) =
        (if env.syncEnabled = true then
          ((trailerPhase env sv).1, Event.readFully :: (trailerPhase env sv).2)
        else
          (.ok, [Event.readFully])) := by
      rcases hre with hre | hre <;> simp [drainPhase, hre, hempty]
    refine ⟨fun b => ?_, fun hasync => ?_⟩
    · rw [hmodel, hdrain]
      by_cases hs : env.syncEnabled = true <;>
        simp [hs, replicateTx_not_in_trailerPhase env sv b]
    · rw [hmodel, hdrain]
      simp [hasync, exportReq]
  · intro hne
    have hpos : 0 < sv.readResult.1.length := List.length_pos.mpr hne
    rcases hac : env.replicateErr with _ | e
    · by_cases hs : env.syncEnabled = true
      · have hdrain : drainPhase env (some sv) =
            ((trailerPhase env sv).1,
              Event.readFully :: Event.replicateTx sv.readResult.1 :: (trailerPhase env sv).2) := by
          rcases hre with hre | hre <;> simp [drainPhase, hre, hpos, hac, hs]
        exact ⟨[Event.exportTx (exportReq uuid env.syncEnabled cs), Event.readFully],
          (trailerPhase env sv).2, by rw [hmodel, hdrain]; simp, by simp,
          fun b => replicateTx_not_in_trailerPhase env sv b⟩
      · have hdrain : drainPhase env (some sv) =
            (.ok, [Event.readFully, Event.replicateTx sv.readResult.1]) := by
          rcases hre with hre | hre <;> simp [drainPhase, hre, hpos, hac, hs]
        exact ⟨[Event.exportTx (exportReq uuid env.syncEnabled cs), Event.readFully], [],
          by rw [hmodel, hdrain]; simp, by simp, by simp⟩
    · have hdrain : drainPhase env (some sv) =
          (.err e, [Event.readFully, Event.replicateTx sv.readResult.1]) := by
        rcases hre with hre | hre <;> simp [drainPhase, hre, hpos, hac]
      exact ⟨[Event.exportTx (exportReq uuid env.syncEnabled cs), Event.readFully], [],
        by rw [hmodel, hdrain]; simp, by simp, by simp⟩

/-- Witness for `drain_and_apply`: the async step over a stream carrying
`[9, 9]` applies exactly that buffer. -/
theorem drain_and_apply_witness :
    Event.replicateTx [9, 9] ∈ (nextTxModel "u" asyncOkEnv).2 := by
  obtain ⟨pre, post, hsplit, -, -⟩ :=
    (drain_and_apply "u" asyncOkEnv ⟨4, [1], 6, [2]⟩ ⟨([9, 9], none), ⟨[], []⟩⟩ rfl rfl
      (Or.inl rfl)).2 (by decide)
  rw [hsplit]
  simp

/-- The C3 failing input: a sync follower at committed id 12, precommitted
id 15; the export request for tx 16 fails with the divergence condition and
returns an absent stream; the discard succeeds. -/
def divergedNilStreamEnv : NextTxEnv :=
  { currentState := .ok ⟨12, [], 15, []⟩
    syncEnabled := true
    exportResult :=
      (none, some "rpc error: the follower precommit state diverged from the master")
    discardErr := none
    replicateErr := none
    allowCommitErr := none }

/-- C3 at its failing input: the step discards precommitted transactions
since `committedTxId + 1 = 13` and does not propagate the export error, but
then — instead of completing the attempt as a soft success — falls through
into the drain over the stream value returned by the failed export call,
which is absent, and panics. -/
theorem divergence_not_soft_success :
    nextTxModel "u" divergedNilStreamEnv =
      (.panic "invalid memory address or nil pointer dereference",
       [Event.exportTx ⟨16, some ⟨"u", 12, [], 15, []⟩, true⟩, Event.discardSince 13]) := by
  decide

/-- C9: after an export failure matching the divergence condition with a
successful discard, `nextTx` does not return early: it builds a message
receiver over, and reads from, the stream value returned by the failed
`ExportTx` call; when that value is absent (nil) the read is an unguarded
dereference — a panic, not a returned error. -/
theorem divergence_reads_failed_stream (uuid : String) (env : NextTxEnv)
    (cs : CommitState) (e : String)
    (hcs : env.currentState = .ok cs)
    (hdiv : strContains e divergenceMsg = true)
    (hdis : env.discardErr = none) :
    (env.exportResult = (none, some e) →
      (nextTxModel uuid env).1 =
        .panic "invalid memory address or nil pointer dereference") ∧
    (∀ sv, env.exportResult = (some sv, some e) →
      Event.readFully ∈ (nextTxModel uuid env).2) := by
  constructor
  · intro hex
    simp [nextTxModel, hcs, hex, hdiv, hdis, drainPhase]
  · intro sv hex
    obtain ⟨rest, hrest⟩ := drainPhase_some_head env sv
    simp [nextTxModel, hcs, hex, hdiv, hdis, hrest]

/-- Witness for `divergence_reads_failed_stream`: with an absent stream the
divergence-recovery path ends in a nil-dereference panic. -/
theorem divergence_reads_failed_stream_witness :
    (nextTxModel "u" divergedNilStreamEnv).1 =
      .panic "invalid memory address or nil pointer dereference" :=
  (divergence_reads_failed_stream "u" divergedNilStreamEnv ⟨12, [], 15, []⟩
    "rpc error: the follower precommit state diverged from the master"
    rfl (by decide) rfl).1 rfl

/-- C10: when the export fails with the divergence condition and the
subsequent `DiscardPrecommittedTxsSince` itself fails, the discard error is
returned, so the absorbed divergence still ends as a hard step failure. -/
theorem divergence_discard_error (uuid : String) (env : NextTxEnv)
    (cs : CommitState) (e de : String)
    (hcs : env.currentState = .ok cs)
    (hex : env.exportResult.2 = some e)
    (hdiv : strContains e divergenceMsg = true)
    (hdis : env.discardErr = some de) :
    (nextTxModel uuid env).1 = .err de ∧
    Event.discardSince (cs.txId + 1) ∈ (nextTxModel uuid env).2 := by
  constructor <;> simp [nextTxModel, hcs, hex, hdiv, hdis]

/-- An environment where the divergence-condition export failure is followed
by a failing discard. -/
def divergedDiscardFailEnv : NextTxEnv :=
  { currentState := .ok ⟨12, [], 15, []⟩
    syncEnabled := true
    exportResult :=
      (none, some "rpc error: the follower precommit state diverged from the master")
    discardErr := some "discard failed"
    replicateErr := none
    allowCommitErr := none }

/-- Witness for `divergence_discard_error`: the failing discard's error is
the step outcome. -/
theorem divergence_discard_error_witness :
    (nextTxModel "u" divergedDiscardFailEnv).1 = .err "discard failed" :=
  (divergence_discard_error "u" divergedDiscardFailEnv ⟨12, [], 15, []⟩
    "rpc error: the follower precommit state diverged from the master" "discard failed"
    rfl rfl (by decide) rfl).1

end Replication
